import Mathlib

/-!
Shallow embedding of the expense-tracker backend (Express + MySQL) in Lean 4.

The embedding follows the route handlers in the repository:
* transaction routes (summary, monthly list, pagination, CRUD) — `src/unnamed/part_001`, lines 1–432;
* category routes (list, create, update, delete) — `src/unnamed/part_001`, lines 433–656;
* login — `src/backend/routes/auth.js`;
* the authentication middleware — `src/backend/middleware/auth.js`.

Database rows are Lean structures; the MySQL tables are lists of rows inside a
`Db` state. Monetary amounts (`DECIMAL(10,2)`) are modelled exactly as integer
cents. Each handler becomes a function from the state (and the already-parsed,
already-validated request input where the claim under study is not about field
validation) to a response paired with the successor state; handlers that error
before any SQL mutation return the state unchanged, mirroring the fact that in
the source no INSERT/UPDATE/DELETE statement has run on those paths.
-/

namespace ExpenseTracker

/-- Transaction / category type enum (`ENUM('INCOME','EXPENSE')`). -/
inductive TxType where
  | income
  | expense
deriving DecidableEq, Repr

/-- A calendar date (MySQL `DATE`), no time component. -/
structure Date where
  year : Nat
  month : Nat
  day : Nat
deriving DecidableEq, Repr

/-- Chronological strict order on dates (lexicographic year, month, day). -/
def Date.ltb (a b : Date) : Bool :=
  a.year < b.year ∨ (a.year = b.year ∧
    (a.month < b.month ∨ (a.month = b.month ∧ a.day < b.day)))

/-- Row of the `users` table (columns used by auth). -/
structure User where
  id : Nat
  username : String
  email : String
  passwordHash : String
  fullName : String
deriving DecidableEq, Repr

/-- Row of the `categories` table. `userId = none` models `user_id NULL`
(system default categories). -/
structure Category where
  id : Nat
  name : String
  description : Option String
  ctype : TxType
  color : String
  userId : Option Nat
  isDefault : Bool
deriving DecidableEq, Repr

/-- Row of the `transactions` table. `amount` is in integer cents;
`createdAt` is an abstract monotone timestamp used by the `ORDER BY`. -/
structure Txn where
  id : Nat
  amount : Int
  description : String
  transactionDate : Date
  ttype : TxType
  categoryId : Nat
  userId : Nat
  notes : Option String
  createdAt : Nat
deriving DecidableEq, Repr

/-- The database state: the two tables the claims are about, plus the
auto-increment counter for `transactions.id`. -/
structure Db where
  categories : List Category
  transactions : List Txn
  nextTxnId : Nat
deriving Repr

/-- An HTTP error response: status code and the `error` message string. -/
structure ApiError where
  status : Nat
  msg : String
deriving DecidableEq, Repr

/-- JS `x || null` on an optional string field (`notes || null`,
`description || null`): the empty string is falsy and collapses to null. -/
def jsOrNull (s : Option String) : Option String :=
  match s with
  | some str => if str = "" then none else some str
  | none => none

/-- JS `x || d` on an optional string with a string fallback
(`color || category.color`). -/
def jsOrDefault (s : Option String) (d : String) : String :=
  match s with
  | some str => if str = "" then d else str
  | none => d

/-! ### Aggregation routes (`GET /summary/:year/:month`, `GET /monthly/:year/:month`)

The route guard is `if (!year || !month || month < 1 || month > 12)`.
Route params are non-empty strings, so the two truthiness tests never fire on
their own; for a numeric month the JS coercing comparisons reduce to the
integer comparisons below. Year and month are carried as `Int` (parsed route
params). -/

/-- Predicate of the summary SQL `WHERE` clause:
`user_id = ? AND type = ? AND YEAR(transaction_date) = ? AND MONTH(transaction_date) = ?`. -/
def monthPred (u : Nat) (ty : TxType) (year month : Int) (t : Txn) : Bool :=
  t.userId == u && t.ttype == ty &&
    (t.transactionDate.year : Int) == year && (t.transactionDate.month : Int) == month

/-- `SELECT COALESCE(SUM(amount), 0) FROM transactions WHERE ...` of the
summary route: the sum of the amounts of the rows matching `monthPred`. -/
def monthAmountSum (db : Db) (u : Nat) (ty : TxType) (year month : Int) : Int :=
  ((db.transactions.filter (monthPred u ty year month)).map (·.amount)).sum

/-- Body of `GET /transactions/summary/:year/:month`. -/
structure Summary where
  income : Int
  expense : Int
  balance : Int
  year : Int
  month : Int
deriving DecidableEq, Repr

/-- Handler of `GET /transactions/summary/:year/:month`
(`src/unnamed/part_001` lines 190–234). -/
def summary (db : Db) (u : Nat) (year month : Int) : Except ApiError Summary :=
  if month < 1 ∨ 12 < month then
    .error ⟨400, "Invalid year or month"⟩
  else
    let income := monthAmountSum db u .income year month
    let expense := monthAmountSum db u .expense year month
    .ok ⟨income, expense, income - expense, year, month⟩

/-- Modelled from the spec: "income = sum of amounts of INCOME transactions
owned by user in that year/month (0 if none)" — written as a sum over all rows
of an indicator-style term, independently of the handler's filter/SUM shape. -/
def specMonthSum (db : Db) (u : Nat) (ty : TxType) (year month : Int) : Int :=
  (db.transactions.map (fun t =>
    if t.userId = u ∧ t.ttype = ty ∧ (t.transactionDate.year : Int) = year ∧
        (t.transactionDate.month : Int) = month then t.amount else 0)).sum

/-! ### Ordering joined transaction rows -/

/-- The `ORDER BY transaction_date DESC, created_at DESC` comparator:
`a` may come before `b` when its date is later, or dates are equal and its
creation time is not earlier. -/
def txnLe (a b : Txn) : Bool :=
  if a.transactionDate = b.transactionDate then b.createdAt ≤ a.createdAt
  else Date.ltb b.transactionDate a.transactionDate

/-- The response shape produced by `formatTransactionResponse`: the
transaction's own columns plus the joined category's id/name/type/color. -/
structure TxnView where
  id : Nat
  amount : Int
  description : String
  transactionDate : Date
  ttype : TxType
  notes : Option String
  createdAt : Nat
  catId : Nat
  catName : String
  catType : TxType
  catColor : String
deriving DecidableEq, Repr

/-- `formatTransactionResponse` applied to a row joined with its category. -/
def formatTxn (t : Txn) (c : Category) : TxnView :=
  ⟨t.id, t.amount, t.description, t.transactionDate, t.ttype, t.notes, t.createdAt,
   c.id, c.name, c.ctype, c.color⟩

/-- The `JOIN categories c ON t.category_id = c.id` step for one row:
`none` when the category is missing (the inner join drops the row). -/
def joinTxn (db : Db) (t : Txn) : Option TxnView :=
  (db.categories.find? (fun c => c.id == t.categoryId)).map (formatTxn t)

/-- A user's transactions joined with their categories in the order
`transaction_date DESC, created_at DESC` — the result set every transaction
list route starts from. -/
def orderedTxns (db : Db) (u : Nat) : List TxnView :=
  ((db.transactions.filter (fun t => t.userId == u)).mergeSort txnLe).filterMap (joinTxn db)

/-- Handler of `GET /transactions/monthly/:year/:month`
(`src/unnamed/part_001` lines 115–142). -/
def listByMonth (db : Db) (u : Nat) (year month : Int) : Except ApiError (List TxnView) :=
  if month < 1 ∨ 12 < month then
    .error ⟨400, "Invalid year or month"⟩
  else
    .ok (((db.transactions.filter (fun t =>
        t.userId == u && (t.transactionDate.year : Int) == year &&
          (t.transactionDate.month : Int) == month)).mergeSort txnLe).filterMap (joinTxn db))

/-- Handler of `GET /transactions` (`src/unnamed/part_001` lines 237–270).
`page`/`size` are `parseInt` of the query params: `none` models an absent or
non-numeric param (`parseInt` gives `NaN`, which is falsy, like `0`). When
`page && size` is truthy the SQL gets `LIMIT size OFFSET (page-1)*size`. -/
def listTxns (db : Db) (u : Nat) (page size : Option Int) : List TxnView :=
  match page, size with
  | some p, some s =>
    if p ≠ 0 ∧ s ≠ 0 then ((orderedTxns db u).drop ((p - 1) * s).toNat).take s.toNat
    else orderedTxns db u
  | _, _ => orderedTxns db u

/-! ### Transaction CRUD routes (`src/unnamed/part_001` lines 272–430) -/

/-- Parsed (and field-validated) body of a transaction create/update request. -/
structure TxnInput where
  amount : Int
  description : String
  transactionDate : Date
  ttype : TxType
  categoryId : Nat
  notes : Option String
deriving DecidableEq, Repr

/-- The category-access check of transaction create/update:
`SELECT * FROM categories WHERE id = ? AND (user_id = ? OR is_default = TRUE)`. -/
def visibleCat (db : Db) (u : Nat) (cid : Nat) : Option Category :=
  db.categories.find? (fun c => c.id == cid && (c.userId == some u || c.isDefault))

/-- The post-insert / post-update readback
`SELECT t.*, c.* FROM transactions t JOIN categories c ... WHERE t.id = ?`. -/
def readTxnById (db : Db) (i : Nat) : Option TxnView :=
  (db.transactions.find? (fun t => t.id == i)).bind (joinTxn db)

/-- The row built by the `INSERT INTO transactions` statement: auto-increment
id, the caller as owner, `notes || null`. -/
def insertedTxn (db : Db) (u : Nat) (inp : TxnInput) (now : Nat) : Txn :=
  { id := db.nextTxnId, amount := inp.amount, description := inp.description,
    transactionDate := inp.transactionDate, ttype := inp.ttype,
    categoryId := inp.categoryId, userId := u, notes := jsOrNull inp.notes,
    createdAt := now }

/-- The database state after the `INSERT`: the new row appended and the
auto-increment counter advanced. -/
def insertedDb (db : Db) (u : Nat) (inp : TxnInput) (now : Nat) : Db :=
  { db with transactions := db.transactions ++ [insertedTxn db u inp now],
            nextTxnId := db.nextTxnId + 1 }

/-- Handler of `POST /transactions` (lines 273–318): reject with 400 when the
category is not visible to the caller; otherwise insert the row (auto-increment
id, `notes || null`) and return the re-read joined row with status 201. -/
def createTxn (db : Db) (u : Nat) (inp : TxnInput) (now : Nat) :
    Except ApiError TxnView × Db :=
  match visibleCat db u inp.categoryId with
  | none => (.error ⟨400, "Invalid category"⟩, db)
  | some _ =>
    let t : Txn := insertedTxn db u inp now
    let db' : Db := insertedDb db u inp now
    (readTxnById db' t.id).elim (.error ⟨500, "insert readback failed"⟩, db')
      (fun v => (.ok v, db'))

/-- Handler of `GET /transactions/:id` (lines 321–345): the row with this id
and owner, joined with its category; 404 when the (joined) result is empty. -/
def getTxn (db : Db) (i u : Nat) : Except ApiError TxnView :=
  ((db.transactions.find? (fun t => t.id == i && t.userId == u)).bind (joinTxn db)).elim
    (.error ⟨404, "Transaction not found"⟩) .ok

/-- Handler of `PUT /transactions/:id` (lines 348–405): 404 when no owned row
matches, 400 when the new category is not visible; otherwise overwrite
amount/description/date/type/category/notes (`notes || null`) and return the
re-read joined row. -/
def updateTxn (db : Db) (i u : Nat) (inp : TxnInput) : Except ApiError TxnView × Db :=
  match db.transactions.find? (fun t => t.id == i && t.userId == u) with
  | none => (.error ⟨404, "Transaction not found"⟩, db)
  | some _ =>
    match visibleCat db u inp.categoryId with
    | none => (.error ⟨400, "Invalid category"⟩, db)
    | some _ =>
      let db' : Db :=
        { db with transactions := db.transactions.map (fun t =>
            if t.id == i && t.userId == u then
              { t with amount := inp.amount, description := inp.description,
                       transactionDate := inp.transactionDate, ttype := inp.ttype,
                       categoryId := inp.categoryId, notes := jsOrNull inp.notes }
            else t) }
      match readTxnById db' i with
      | some v => (.ok v, db')
      | none => (.error ⟨500, "update readback failed"⟩, db')

/-! ### Login (`src/backend/routes/auth.js` lines 91–135)

Password hashing (`bcrypt`) is kept abstract: `verify` stands for
`bcrypt.compare` and `issue` for `jwt.sign`; the route's logic is modelled
around them. -/

/-- Body of a successful login response. -/
structure LoginResponse where
  token : String
  username : String
  email : String
  fullName : String
deriving DecidableEq, Repr

/-- Handler of `POST /auth/login`: 400 when a field is empty (the
`notEmpty` validators), 401 with the one fixed message when the username is
unknown, 401 with the same fixed message when the password does not verify,
and the token + profile on success. -/
def login (verify : String → String → Bool) (issue : User → String)
    (users : List User) (username password : String) : Except ApiError LoginResponse :=
  if username = "" ∨ password = "" then
    .error ⟨400, "Validation failed"⟩
  else
    match users.find? (fun u => u.username == username) with
    | none => .error ⟨401, "Invalid username or password!"⟩
    | some u =>
      if verify password u.passwordHash then
        .ok ⟨issue u, u.username, u.email, u.fullName⟩
      else
        .error ⟨401, "Invalid username or password!"⟩

/-! ### Authentication middleware (`src/backend/middleware/auth.js`)

The connection pool is modelled as the number of currently held connections:
`pool.getConnection()` increments it, `connection.release()` decrements it.
`tok` is the outcome of header extraction plus `jwt.verify`; `queryThrows`
models the user-lookup `connection.execute` throwing (e.g. the connection
dying mid-query). The middleware's `catch` has no `finally`: `release` is the
statement after the query, so a throwing query skips it. -/

/-- Outcome of the authentication middleware. -/
inductive AuthResult where
  | authed (userId : Nat)
  | unauthorized
  | forbidden
  | internalError
deriving DecidableEq, Repr

/-- Token-extraction/verification outcome feeding the middleware. -/
inductive TokenState where
  | absent
  | invalid
  | expired
  | valid (userId : Nat)
deriving DecidableEq, Repr

/-- The `authenticateToken` middleware, returning the response outcome and the
number of pool connections still held afterwards. -/
def authenticateToken (held : Nat) (tok : TokenState) (queryThrows : Bool)
    (users : List User) : AuthResult × Nat :=
  match tok with
  | .absent => (.unauthorized, held)
  | .invalid => (.forbidden, held)
  | .expired => (.forbidden, held)
  | .valid uid =>
    let heldAfterGet := held + 1
    if queryThrows then
      (.internalError, heldAfterGet)
    else
      let heldAfterRelease := heldAfterGet - 1
      match users.find? (fun u => u.id == uid) with
      | none => (.unauthorized, heldAfterRelease)
      | some _ => (.authed uid, heldAfterRelease)

/-! ### Category routes (`src/unnamed/part_001` lines 433–656) -/

/-- `SELECT * FROM categories WHERE id = ?` taking the (unique, by primary
key) first match. -/
def findCat (cats : List Category) (i : Nat) : Option Category :=
  cats.find? (fun c => c.id == i)

/-- The visibility filter `user_id = ? OR is_default = TRUE` used by the
category list routes. -/
def catVisible (u : Nat) (c : Category) : Bool :=
  c.userId == some u || c.isDefault

/-- Handler of `GET /categories`: visible categories ordered by name. -/
def listCategories (db : Db) (u : Nat) : List Category :=
  (db.categories.filter (catVisible u)).mergeSort (fun a b => a.name ≤ b.name)

/-- Handler of `GET /categories/type/:type`: visible categories of one type,
ordered by name. -/
def listCategoriesByType (db : Db) (u : Nat) (ty : TxType) : List Category :=
  (db.categories.filter (fun c => catVisible u c && c.ctype == ty)).mergeSort
    (fun a b => a.name ≤ b.name)

/-- Parsed (and field-validated) body of a category create/update request.
`description`/`color` are `none` when the field is absent. -/
structure CatInput where
  name : String
  description : Option String
  color : Option String
  ctype : TxType
deriving DecidableEq, Repr

/-- Handler of `PUT /categories/:id`: 404 when the id is unknown, 403 when the
category is default or not owned by the caller; otherwise writes
`name, description || null, color || existing color, type` and returns the
re-read row. -/
def updateCategory (db : Db) (i u : Nat) (inp : CatInput) :
    Except ApiError Category × Db :=
  match findCat db.categories i with
  | none => (.error ⟨404, "Category not found"⟩, db)
  | some c =>
    if c.isDefault ∨ c.userId ≠ some u then
      (.error ⟨403, "Cannot modify this category"⟩, db)
    else
      let c' : Category :=
        { c with name := inp.name, description := jsOrNull inp.description,
                 color := jsOrDefault inp.color c.color, ctype := inp.ctype }
      let db' : Db :=
        { db with categories := db.categories.map (fun x => if x.id == i then c' else x) }
      match findCat db'.categories i with
      | some c'' => (.ok c'', db')
      | none => (.error ⟨500, "update readback failed"⟩, db')

/-- Handler of `DELETE /categories/:id`: 404 when unknown, 403 when default or
foreign, 400 when any transaction (of any user) references the category;
otherwise deletes the row. -/
def deleteCategory (db : Db) (i u : Nat) : Except ApiError Unit × Db :=
  match findCat db.categories i with
  | none => (.error ⟨404, "Category not found"⟩, db)
  | some c =>
    if c.isDefault ∨ c.userId ≠ some u then
      (.error ⟨403, "Cannot delete this category"⟩, db)
    else if db.transactions.any (fun t => t.categoryId == i) then
      (.error ⟨400, "Cannot delete category that is being used in transactions"⟩, db)
    else
      (.ok (), { db with categories := db.categories.filter (fun x => x.id ≠ i) })

end ExpenseTracker

namespace ExpenseTracker

/-! ### First theorems: C1 and C8 -/

lemma filter_map_sum_eq_map_ite_sum (l : List Txn) (p : Txn → Bool) :
    ((l.filter p).map (·.amount)).sum =
      (l.map (fun t => if p t then t.amount else (0 : Int))).sum := by
  induction l with
  | nil => rfl
  | cons a l ih =>
    by_cases h : p a <;> simp [List.filter_cons, h, ih]

lemma monthAmountSum_eq_spec (db : Db) (u : Nat) (ty : TxType) (year month : Int) :
    monthAmountSum db u ty year month = specMonthSum db u ty year month := by
  unfold monthAmountSum specMonthSum
  rw [filter_map_sum_eq_map_ite_sum]
  congr 1
  apply List.map_congr_left
  intro t _
  unfold monthPred
  by_cases h : t.userId = u ∧ t.ttype = ty ∧ (t.transactionDate.year : Int) = year ∧
      (t.transactionDate.month : Int) = month
  · obtain ⟨h1, h2, h3, h4⟩ := h
    simp [h1, h2, h3, h4]
  · simp only [if_neg h]
    rcases Decidable.not_and_iff_or_not.mp h with h' | h'
    · simp [h']
    · rcases Decidable.not_and_iff_or_not.mp h' with h'' | h''
      · simp [h'']
      · rcases Decidable.not_and_iff_or_not.mp h'' with h3 | h4
        · simp [h3]
        · simp [h4]

/-- C1: for month in 1–12 the summary route returns income = the sum of the
user's INCOME amounts in that year/month, expense = the EXPENSE sum, and
balance = income − expense; when the user has no transactions in that month it
returns income 0, expense 0, balance 0. -/
theorem summary_correct (db : Db) (u : Nat) (year month : Int)
    (h1 : 1 ≤ month) (h2 : month ≤ 12) :
    summary db u year month =
      .ok ⟨specMonthSum db u .income year month, specMonthSum db u .expense year month,
           specMonthSum db u .income year month - specMonthSum db u .expense year month,
           year, month⟩ ∧
    (db.transactions.filter (fun t =>
        t.userId == u && (t.transactionDate.year : Int) == year &&
          (t.transactionDate.month : Int) == month) = [] →
      summary db u year month = .ok ⟨0, 0, 0, year, month⟩) := by
  have hguard : ¬ (month < 1 ∨ 12 < month) := by omega
  constructor
  · unfold summary
    rw [if_neg hguard]
    simp [monthAmountSum_eq_spec]
  · intro hempty
    unfold summary
    rw [if_neg hguard]
    have hsub : ∀ ty : TxType, db.transactions.filter (monthPred u ty year month) = [] := by
      intro ty
      rw [List.filter_eq_nil_iff] at hempty ⊢
      intro t ht
      have := hempty t ht
      unfold monthPred
      intro hc
      apply this
      simp only [Bool.and_eq_true, beq_iff_eq] at hc ⊢
      exact ⟨⟨hc.1.1.1, hc.1.2⟩, hc.2⟩
    have hz : ∀ ty : TxType, monthAmountSum db u ty year month = 0 := by
      intro ty
      unfold monthAmountSum
      rw [hsub ty]
      rfl
    simp [hz]

/-- Witness for `summary_correct` at a concrete database and month. -/
theorem summary_correct_witness :
    (1 : Int) ≤ 5 ∧
      (summary ⟨[], [], 0⟩ 1 2024 5 = .ok ⟨specMonthSum ⟨[], [], 0⟩ 1 .income 2024 5,
          specMonthSum ⟨[], [], 0⟩ 1 .expense 2024 5,
          specMonthSum ⟨[], [], 0⟩ 1 .income 2024 5 -
            specMonthSum ⟨[], [], 0⟩ 1 .expense 2024 5, 2024, 5⟩ ∧
        (([] : List Txn).filter (fun t =>
            t.userId == 1 && (t.transactionDate.year : Int) == 2024 &&
              (t.transactionDate.month : Int) == 5) = [] →
          summary ⟨[], [], 0⟩ 1 2024 5 = .ok ⟨0, 0, 0, 2024, 5⟩)) :=
  ⟨by decide, summary_correct ⟨[], [], 0⟩ 1 2024 5 (by decide) (by decide)⟩

/-- C8: a month outside 1–12 makes both the monthly list route and the
explicit summary route fail with HTTP 400 and return no data. -/
theorem month_out_of_range_rejected (db : Db) (u : Nat) (year month : Int)
    (h : month < 1 ∨ 12 < month) :
    listByMonth db u year month = .error ⟨400, "Invalid year or month"⟩ ∧
    summary db u year month = .error ⟨400, "Invalid year or month"⟩ := by
  constructor
  · unfold listByMonth
    rw [if_pos h]
  · unfold summary
    rw [if_pos h]

/-- Witness for `month_out_of_range_rejected` at month 13. -/
theorem month_out_of_range_rejected_witness :
    ((13 : Int) < 1 ∨ (12 : Int) < 13) ∧
      (listByMonth ⟨[], [], 0⟩ 1 2024 13 = .error ⟨400, "Invalid year or month"⟩ ∧
        summary ⟨[], [], 0⟩ 1 2024 13 = .error ⟨400, "Invalid year or month"⟩) :=
  ⟨by decide, month_out_of_range_rejected ⟨[], [], 0⟩ 1 2024 13 (by decide)⟩

/-! ### Category theorems: C2, C3, C10 -/

lemma find?_id_replace (l : List Category) (i : Nat) (c c' : Category)
    (h : l.find? (fun x => x.id == i) = some c) (hid : c'.id = i) :
    (l.map (fun x => if x.id == i then c' else x)).find? (fun x => x.id == i) = some c' := by
  induction l with
  | nil => exact Option.noConfusion h
  | cons a l ih =>
    cases hb : a.id == i with
    | true =>
      simp only [List.map_cons, if_pos hb]
      exact List.find?_cons_of_pos _ (by simp [hid])
    | false =>
      simp only [List.find?_cons, hb] at h
      simp only [List.map_cons, List.find?_cons, hb, Bool.false_eq_true, if_false]
      exact ih h

/-- C2: deleting a user-owned category that some transaction still references
fails with HTTP 400 and changes nothing; once no transaction references it, the
same delete succeeds and removes exactly that category row. -/
theorem delete_category_conflict_then_success (db : Db) (c : Category) (u : Nat)
    (hfind : findCat db.categories c.id = some c)
    (howner : c.userId = some u) (hnd : c.isDefault = false) :
    ((∃ t ∈ db.transactions, t.categoryId = c.id) →
      deleteCategory db c.id u =
        (.error ⟨400, "Cannot delete category that is being used in transactions"⟩, db)) ∧
    ((∀ t ∈ db.transactions, t.categoryId ≠ c.id) →
      deleteCategory db c.id u =
        (.ok (), { db with categories := db.categories.filter (fun x => x.id ≠ c.id) })) := by
  have hforb : ¬ (c.isDefault ∨ c.userId ≠ some u) := by simp [hnd, howner]
  constructor
  · intro ⟨t, ht, hcat⟩
    have hany : db.transactions.any (fun t => t.categoryId == c.id) = true :=
      List.any_eq_true.mpr ⟨t, ht, by simp [hcat]⟩
    simp [deleteCategory, hfind, hforb, hany]
  · intro hnone
    have hany : db.transactions.any (fun t => t.categoryId == c.id) = false := by
      rw [Bool.eq_false_iff]
      intro hcontra
      obtain ⟨t, ht, hc⟩ := List.any_eq_true.mp hcontra
      exact hnone t ht (by simpa using hc)
    simp [deleteCategory, hfind, hforb, hany]

/-- Witness for `delete_category_conflict_then_success`: a category referenced
by one transaction (conflict branch), and the same category with no
referencing transaction (success branch). -/
theorem delete_category_conflict_then_success_witness :
    deleteCategory ⟨[⟨7, "Food", none, .expense, "#FF5722", some 1, false⟩],
        [⟨1, 500, "lunch", ⟨2024, 5, 2⟩, .expense, 7, 1, none, 0⟩], 2⟩ 7 1 =
      (.error ⟨400, "Cannot delete category that is being used in transactions"⟩,
        ⟨[⟨7, "Food", none, .expense, "#FF5722", some 1, false⟩],
         [⟨1, 500, "lunch", ⟨2024, 5, 2⟩, .expense, 7, 1, none, 0⟩], 2⟩) ∧
    deleteCategory ⟨[⟨7, "Food", none, .expense, "#FF5722", some 1, false⟩], [], 2⟩ 7 1 =
      (.ok (), ⟨[], [], 2⟩) := by
  constructor
  · exact (delete_category_conflict_then_success _
      ⟨7, "Food", none, .expense, "#FF5722", some 1, false⟩ 1
      (by decide) rfl rfl).1
      ⟨⟨1, 500, "lunch", ⟨2024, 5, 2⟩, .expense, 7, 1, none, 0⟩, by simp, rfl⟩
  · have h := (delete_category_conflict_then_success
      ⟨[⟨7, "Food", none, .expense, "#FF5722", some 1, false⟩], [], 2⟩
      ⟨7, "Food", none, .expense, "#FF5722", some 1, false⟩ 1
      (by decide) rfl rfl).2 (by simp)
    simpa using h

/-- C3: a default category is in every user's list and by-type list, and every
update or delete attempt on it by any user fails with HTTP 403 and leaves the
database unchanged. -/
theorem default_category_visible_and_immutable (db : Db) (u : Nat) (c : Category)
    (hmem : c ∈ db.categories) (hdef : c.isDefault = true) (_hown : c.userId = none)
    (hfind : findCat db.categories c.id = some c) (inp : CatInput) :
    c ∈ listCategories db u ∧
    c ∈ listCategoriesByType db u c.ctype ∧
    updateCategory db c.id u inp = (.error ⟨403, "Cannot modify this category"⟩, db) ∧
    deleteCategory db c.id u = (.error ⟨403, "Cannot delete this category"⟩, db) := by
  have hvis : catVisible u c = true := by simp [catVisible, hdef]
  have hforb : c.isDefault ∨ c.userId ≠ some u := Or.inl hdef
  refine ⟨?_, ?_, ?_, ?_⟩
  · unfold listCategories
    rw [List.mem_mergeSort]
    exact List.mem_filter.mpr ⟨hmem, hvis⟩
  · unfold listCategoriesByType
    rw [List.mem_mergeSort]
    exact List.mem_filter.mpr ⟨hmem, by simp [hvis]⟩
  · simp [updateCategory, hfind, hforb]
  · simp [deleteCategory, hfind, hforb]

/-- Witness for `default_category_visible_and_immutable`: the seeded default
"Salary" category with a user whose id is 1. -/
theorem default_category_visible_and_immutable_witness :
    (⟨3, "Salary", some "Monthly salary", .income, "#4CAF50", none, true⟩ : Category) ∈
      listCategories ⟨[⟨3, "Salary", some "Monthly salary", .income, "#4CAF50", none, true⟩], [], 1⟩ 1 ∧
    (⟨3, "Salary", some "Monthly salary", .income, "#4CAF50", none, true⟩ : Category) ∈
      listCategoriesByType
        ⟨[⟨3, "Salary", some "Monthly salary", .income, "#4CAF50", none, true⟩], [], 1⟩ 1 .income ∧
    updateCategory ⟨[⟨3, "Salary", some "Monthly salary", .income, "#4CAF50", none, true⟩], [], 1⟩
        3 1 ⟨"X", none, none, .income⟩ =
      (.error ⟨403, "Cannot modify this category"⟩,
        ⟨[⟨3, "Salary", some "Monthly salary", .income, "#4CAF50", none, true⟩], [], 1⟩) ∧
    deleteCategory ⟨[⟨3, "Salary", some "Monthly salary", .income, "#4CAF50", none, true⟩], [], 1⟩
        3 1 =
      (.error ⟨403, "Cannot delete this category"⟩,
        ⟨[⟨3, "Salary", some "Monthly salary", .income, "#4CAF50", none, true⟩], [], 1⟩) := by
  have h := default_category_visible_and_immutable
    ⟨[⟨3, "Salary", some "Monthly salary", .income, "#4CAF50", none, true⟩], [], 1⟩ 1
    ⟨3, "Salary", some "Monthly salary", .income, "#4CAF50", none, true⟩
    (by simp) rfl rfl (by decide) ⟨"X", none, none, .income⟩
  exact ⟨h.1, h.2.1, h.2.2.1, h.2.2.2⟩

/-- C10: an otherwise-valid category update that omits `description` stores
null in place of the previous non-null description, while an omitted `color`
keeps the category's existing color. -/
theorem update_category_omitted_description_nulled (db : Db) (c : Category) (u : Nat)
    (inp : CatInput) (d : String)
    (hfind : findCat db.categories c.id = some c)
    (howner : c.userId = some u) (hnd : c.isDefault = false)
    (_hdesc : c.description = some d) (hinp : inp.description = none) :
    ∃ c', (updateCategory db c.id u inp).1 = .ok c' ∧
      findCat ((updateCategory db c.id u inp).2).categories c.id = some c' ∧
      c'.description = none ∧
      (inp.color = none → c'.color = c.color) := by
  have hforb : ¬ (c.isDefault ∨ c.userId ≠ some u) := by simp [hnd, howner]
  have hre : findCat (db.categories.map (fun x =>
      if x.id == c.id then { c with name := inp.name, description := jsOrNull inp.description, color := jsOrDefault inp.color c.color, ctype := inp.ctype } else x)) c.id =
      some { c with name := inp.name, description := jsOrNull inp.description, color := jsOrDefault inp.color c.color, ctype := inp.ctype } :=
    find?_id_replace db.categories c.id c
      { c with name := inp.name, description := jsOrNull inp.description, color := jsOrDefault inp.color c.color, ctype := inp.ctype } hfind rfl
  refine ⟨{ c with name := inp.name, description := jsOrNull inp.description, color := jsOrDefault inp.color c.color, ctype := inp.ctype }, ?_, ?_, ?_, ?_⟩
  · simp only [updateCategory, hfind, hforb, if_false, hre]
  · simp only [updateCategory, hfind, hforb, if_false, hre]
  · simp [hinp, jsOrNull]
  · intro hcol
    simp [hcol, jsOrDefault]

/-- Witness for `update_category_omitted_description_nulled`: updating a
user-owned category with a stored description while the request omits both
description and color. -/
theorem update_category_omitted_description_nulled_witness :
    ∃ c', (updateCategory ⟨[⟨9, "Gym", some "membership", .expense, "#123ABC", some 4, false⟩],
        [], 1⟩ 9 4 ⟨"Fitness", none, none, .expense⟩).1 = .ok c' ∧
      findCat ((updateCategory ⟨[⟨9, "Gym", some "membership", .expense, "#123ABC", some 4, false⟩],
          [], 1⟩ 9 4 ⟨"Fitness", none, none, .expense⟩).2).categories 9 = some c' ∧
      c'.description = none ∧
      ((⟨"Fitness", none, none, .expense⟩ : CatInput).color = none →
        c'.color = (⟨9, "Gym", some "membership", .expense, "#123ABC", some 4, false⟩ : Category).color) :=
  update_category_omitted_description_nulled
    ⟨[⟨9, "Gym", some "membership", .expense, "#123ABC", some 4, false⟩], [], 1⟩
    ⟨9, "Gym", some "membership", .expense, "#123ABC", some 4, false⟩ 4
    ⟨"Fitness", none, none, .expense⟩ "membership" (by decide) rfl rfl rfl rfl

/-! ### Transaction access-control theorem: C4 -/

/-- C4: when the request's categoryId resolves to no category that is owned by
the caller or default — whether the id is absent altogether or belongs to
another user — transaction create fails with HTTP 400 and inserts nothing, and
transaction update of an existing owned transaction fails with HTTP 400 and
modifies nothing. -/
theorem txn_invalid_category_rejected (db : Db) (u : Nat) (inp : TxnInput) (now i : Nat)
    (hcat : visibleCat db u inp.categoryId = none) :
    createTxn db u inp now = (.error ⟨400, "Invalid category"⟩, db) ∧
    ((∃ t ∈ db.transactions, t.id = i ∧ t.userId = u) →
      updateTxn db i u inp = (.error ⟨400, "Invalid category"⟩, db)) := by
  constructor
  · simp [createTxn, hcat]
  · intro ⟨t, ht, hid, hu⟩
    have hsome : (db.transactions.find? (fun t => t.id == i && t.userId == u)).isSome :=
      List.find?_isSome.mpr ⟨t, ht, by simp [hid, hu]⟩
    obtain ⟨t', ht'⟩ := Option.isSome_iff_exists.mp hsome
    simp [updateTxn, ht', hcat]

/-- Witness for `txn_invalid_category_rejected`: category 5 exists but belongs
to user 2 and is not default, so user 1 can neither create with it nor point
their existing transaction 1 at it. -/
theorem txn_invalid_category_rejected_witness :
    createTxn ⟨[⟨5, "Food", none, .expense, "#FF5722", some 2, false⟩],
        [⟨1, 100, "taxi", ⟨2024, 1, 1⟩, .expense, 5, 1, none, 0⟩], 2⟩ 1
        ⟨100, "coffee", ⟨2024, 1, 2⟩, .expense, 5, none⟩ 1 =
      (.error ⟨400, "Invalid category"⟩,
        ⟨[⟨5, "Food", none, .expense, "#FF5722", some 2, false⟩],
         [⟨1, 100, "taxi", ⟨2024, 1, 1⟩, .expense, 5, 1, none, 0⟩], 2⟩) ∧
    updateTxn ⟨[⟨5, "Food", none, .expense, "#FF5722", some 2, false⟩],
        [⟨1, 100, "taxi", ⟨2024, 1, 1⟩, .expense, 5, 1, none, 0⟩], 2⟩ 1 1
        ⟨100, "coffee", ⟨2024, 1, 2⟩, .expense, 5, none⟩ =
      (.error ⟨400, "Invalid category"⟩,
        ⟨[⟨5, "Food", none, .expense, "#FF5722", some 2, false⟩],
         [⟨1, 100, "taxi", ⟨2024, 1, 1⟩, .expense, 5, 1, none, 0⟩], 2⟩) := by
  have h := txn_invalid_category_rejected
    ⟨[⟨5, "Food", none, .expense, "#FF5722", some 2, false⟩],
     [⟨1, 100, "taxi", ⟨2024, 1, 1⟩, .expense, 5, 1, none, 0⟩], 2⟩ 1
    ⟨100, "coffee", ⟨2024, 1, 2⟩, .expense, 5, none⟩ 1 1 (by decide)
  exact ⟨h.1, h.2 ⟨⟨1, 100, "taxi", ⟨2024, 1, 1⟩, .expense, 5, 1, none, 0⟩, by simp, rfl, rfl⟩⟩

/-! ### Login theorem: C5 -/

/-- C5: every login failure caused by an unknown username and every login
failure caused by a password that does not verify produces the one identical
response — HTTP 401 with the message "Invalid username or password!" — so the
two causes are observationally indistinguishable to the caller. -/
theorem login_failure_indistinguishable (verify : String → String → Bool)
    (issue : User → String) (users : List User) (username password : String)
    (hu : username ≠ "") (hp : password ≠ "")
    (hfail : users.find? (fun u => u.username == username) = none ∨
      ∃ u, users.find? (fun u => u.username == username) = some u ∧
        verify password u.passwordHash = false) :
    login verify issue users username password =
      .error ⟨401, "Invalid username or password!"⟩ := by
  have hval : ¬ (username = "" ∨ password = "") := by simp [hu, hp]
  rcases hfail with h | ⟨u, hfind, hv⟩
  · simp [login, hval, h]
  · simp [login, hval, hfind, hv]

/-- Witness for `login_failure_indistinguishable`: an unknown username against
a one-user table, under a verifier that rejects everything. -/
theorem login_failure_indistinguishable_witness :
    login (fun _ _ => false) (fun _ => "tok")
      [⟨1, "alice", "alice@example.com", "h1", "Alice A"⟩] "bob" "pw" =
      .error ⟨401, "Invalid username or password!"⟩ :=
  login_failure_indistinguishable (fun _ _ => false) (fun _ => "tok")
    [⟨1, "alice", "alice@example.com", "h1", "Alice A"⟩] "bob" "pw"
    (by decide) (by decide) (Or.inl (by decide))

/-! ### Connection-release theorem: C9 -/

/-- C9: the authentication middleware does not release its pool connection on
the error-thrown exit path. Starting from zero held connections, a request
with a valid token whose user-lookup query throws ends with one connection
still held (the catch block returns 500 without `connection.release()`),
whereas the non-throwing paths end with zero held. -/
theorem auth_gate_leaks_connection_on_query_error :
    authenticateToken 0 (.valid 1) true [] = (.internalError, 1) ∧
    (authenticateToken 0 (.valid 1) false
        [⟨1, "alice", "alice@example.com", "h1", "Alice A"⟩]).2 = 0 ∧
    (authenticateToken 0 (.valid 1) false []).2 = 0 ∧
    (1 : Nat) ≠ 0 := by
  refine ⟨rfl, rfl, rfl, by decide⟩

/-! ### Pagination theorem: C6 -/

/-- C6: with a 1-based page and a positive size, the list route returns
exactly the elements at ranks `(page-1)*size+1 … page*size` of the user's
transactions ordered by date descending then creation time descending; with
page and size not both supplied it returns the full ordered set. -/
theorem listTxns_pagination (db : Db) (u : Nat) (p s : Nat)
    (h1 : 1 ≤ p) (h2 : 1 ≤ s) :
    listTxns db u (some (p : Int)) (some (s : Int)) =
      ((orderedTxns db u).drop ((p - 1) * s)).take s ∧
    (∀ i, i < s → (listTxns db u (some (p : Int)) (some (s : Int)))[i]? =
      (orderedTxns db u)[(p - 1) * s + i]?) ∧
    (∀ q, listTxns db u q none = orderedTxns db u) ∧
    (∀ q, listTxns db u none q = orderedTxns db u) := by
  obtain ⟨p', rfl⟩ : ∃ p', p = p' + 1 := ⟨p - 1, by omega⟩
  have hp0 : ((p' + 1 : Nat) : Int) ≠ 0 := by exact_mod_cast Nat.succ_ne_zero p'
  have hs0 : ((s : Nat) : Int) ≠ 0 := by exact_mod_cast (by omega : s ≠ 0)
  have hoff : ((((p' + 1 : Nat) : Int) - 1) * (s : Int)).toNat = p' * s := by
    have h : (((p' + 1 : Nat) : Int) - 1) * (s : Int) = ((p' * s : Nat) : Int) := by
      push_cast
      ring
    rw [h, Int.toNat_natCast]
  have hsub : (p' + 1 - 1) * s = p' * s := by simp
  have hmain : listTxns db u (some ((p' + 1 : Nat) : Int)) (some (s : Int)) =
      ((orderedTxns db u).drop (p' * s)).take s := by
    simp only [listTxns, if_pos (And.intro hp0 hs0), hoff, Int.toNat_natCast]
  refine ⟨by rw [hmain, hsub], ?_, fun q => by cases q <;> rfl, fun q => by cases q <;> rfl⟩
  intro i hi
  rw [hmain, hsub, List.getElem?_take, if_pos hi, List.getElem?_drop]

/-- Witness for `listTxns_pagination`: page 2 of size 1 over two transactions
of user 1 on distinct dates. -/
theorem listTxns_pagination_witness :
    (listTxns ⟨[⟨5, "Food", none, .expense, "#FF5722", some 1, false⟩],
        [⟨1, 100, "old", ⟨2024, 1, 1⟩, .expense, 5, 1, none, 0⟩,
         ⟨2, 200, "new", ⟨2024, 2, 1⟩, .expense, 5, 1, none, 1⟩], 3⟩ 1
        (some ((2 : Nat) : Int)) (some ((1 : Nat) : Int)) =
      ((orderedTxns ⟨[⟨5, "Food", none, .expense, "#FF5722", some 1, false⟩],
        [⟨1, 100, "old", ⟨2024, 1, 1⟩, .expense, 5, 1, none, 0⟩,
         ⟨2, 200, "new", ⟨2024, 2, 1⟩, .expense, 5, 1, none, 1⟩], 3⟩ 1).drop ((2 - 1) * 1)).take 1) ∧
    listTxns ⟨[⟨5, "Food", none, .expense, "#FF5722", some 1, false⟩],
        [⟨1, 100, "old", ⟨2024, 1, 1⟩, .expense, 5, 1, none, 0⟩,
         ⟨2, 200, "new", ⟨2024, 2, 1⟩, .expense, 5, 1, none, 1⟩], 3⟩ 1 none none =
      orderedTxns ⟨[⟨5, "Food", none, .expense, "#FF5722", some 1, false⟩],
        [⟨1, 100, "old", ⟨2024, 1, 1⟩, .expense, 5, 1, none, 0⟩,
         ⟨2, 200, "new", ⟨2024, 2, 1⟩, .expense, 5, 1, none, 1⟩], 3⟩ 1 := by
  have h := listTxns_pagination ⟨[⟨5, "Food", none, .expense, "#FF5722", some 1, false⟩],
    [⟨1, 100, "old", ⟨2024, 1, 1⟩, .expense, 5, 1, none, 0⟩,
     ⟨2, 200, "new", ⟨2024, 2, 1⟩, .expense, 5, 1, none, 1⟩], 3⟩ 1 2 1
    (by decide) (by decide)
  exact ⟨h.1, h.2.2.1 none⟩

/-! ### Round-trip theorem: C7 -/

lemma find?_and_of_find? (l : List Category) (q : Category → Bool) (cid : Nat) (c : Category)
    (h : l.find? (fun x => x.id == cid) = some c) (hq : q c = true) :
    l.find? (fun x => x.id == cid && q x) = some c := by
  induction l with
  | nil => exact Option.noConfusion h
  | cons a l ih =>
    cases hb : a.id == cid with
    | true =>
      simp only [List.find?_cons, hb, if_true] at h
      obtain rfl : a = c := Option.some.inj h
      exact List.find?_cons_of_pos _ (by simp [hb, hq])
    | false =>
      simp only [List.find?_cons, hb, Bool.false_eq_true, if_false] at h
      rw [List.find?_cons]
      simp only [hb, Bool.false_and, Bool.false_eq_true, if_false]
      exact ih h

/-- C7: creating a transaction with a category visible to the caller and then
fetching it by the returned id as the same user returns the very same view —
same amount, description, transaction date, type, joined category fields —
and an absent `notes` is returned as null. -/
theorem create_then_get_roundtrip (db : Db) (u : Nat) (inp : TxnInput) (now : Nat)
    (c : Category)
    (hfresh : ∀ t ∈ db.transactions, t.id ≠ db.nextTxnId)
    (hjoin : db.categories.find? (fun x => x.id == inp.categoryId) = some c)
    (hvis : (c.userId == some u || c.isDefault) = true) :
    ∃ v db', createTxn db u inp now = (.ok v, db') ∧
      getTxn db' v.id u = .ok v ∧
      v.amount = inp.amount ∧ v.description = inp.description ∧
      v.transactionDate = inp.transactionDate ∧ v.ttype = inp.ttype ∧
      v.catId = c.id ∧ v.catName = c.name ∧ v.catType = c.ctype ∧ v.catColor = c.color ∧
      (inp.notes = none → v.notes = none) := by
  have hvisc : visibleCat db u inp.categoryId = some c :=
    find?_and_of_find? db.categories (fun x => x.userId == some u || x.isDefault)
      inp.categoryId c hjoin hvis
  have htid : (insertedTxn db u inp now).id = db.nextTxnId := rfl
  have hnotold : ∀ x ∈ db.transactions, ¬ (x.id == db.nextTxnId) = true := by
    intro x hx
    simp [hfresh x hx]
  have hnotold2 : ∀ x ∈ db.transactions,
      ¬ (x.id == db.nextTxnId && x.userId == u) = true := by
    intro x hx
    simp [hfresh x hx]
  have hfind1 : (db.transactions ++ [insertedTxn db u inp now]).find?
      (fun t => t.id == db.nextTxnId) = some (insertedTxn db u inp now) := by
    rw [List.find?_append, List.find?_eq_none.mpr hnotold, Option.none_or,
      List.find?_cons_of_pos _ (by simp [htid])]
  have hfind2 : (db.transactions ++ [insertedTxn db u inp now]).find?
      (fun t => t.id == db.nextTxnId && t.userId == u) = some (insertedTxn db u inp now) := by
    rw [List.find?_append, List.find?_eq_none.mpr hnotold2, Option.none_or,
      List.find?_cons_of_pos _ (by simp [htid, insertedTxn])]
  have hjoin' : ∀ dbc : Db, dbc.categories = db.categories →
      joinTxn dbc (insertedTxn db u inp now) =
        some (formatTxn (insertedTxn db u inp now) c) := by
    intro dbc hc
    unfold joinTxn
    rw [hc]
    have : (insertedTxn db u inp now).categoryId = inp.categoryId := rfl
    rw [this, hjoin]
    rfl
  have hread : readTxnById (insertedDb db u inp now) (insertedTxn db u inp now).id =
      some (formatTxn (insertedTxn db u inp now) c) := by
    show ((db.transactions ++ [insertedTxn db u inp now]).find?
      (fun t => t.id == db.nextTxnId)).bind (joinTxn (insertedDb db u inp now)) = _
    rw [hfind1]
    exact hjoin' _ rfl
  refine ⟨formatTxn (insertedTxn db u inp now) c, insertedDb db u inp now,
    ?_, ?_, rfl, rfl, rfl, rfl, rfl, rfl, rfl, rfl, ?_⟩
  · simp only [createTxn, hvisc]
    rw [hread]
    rfl
  · show ((((db.transactions ++ [insertedTxn db u inp now]).find?
        (fun t => t.id == db.nextTxnId && t.userId == u)).bind
      (joinTxn (insertedDb db u inp now))).elim
      (Except.error ⟨404, "Transaction not found"⟩) Except.ok : Except ApiError TxnView) =
      Except.ok (formatTxn (insertedTxn db u inp now) c)
    rw [hfind2, Option.some_bind, hjoin' (insertedDb db u inp now) rfl]
    rfl
  · intro hn
    show jsOrNull inp.notes = none
    rw [hn]
    rfl

/-- Witness for `create_then_get_roundtrip`: user 1 creates a transaction in
their own category 5 with absent notes and reads it back. -/
theorem create_then_get_roundtrip_witness :
    ∃ v db', createTxn ⟨[⟨5, "Food", none, .expense, "#FF5722", some 1, false⟩], [], 1⟩ 1
        ⟨250, "coffee", ⟨2024, 3, 4⟩, .expense, 5, none⟩ 9 = (.ok v, db') ∧
      getTxn db' v.id 1 = .ok v ∧
      v.amount = 250 ∧ v.description = "coffee" ∧
      v.transactionDate = ⟨2024, 3, 4⟩ ∧ v.ttype = .expense ∧
      v.catId = 5 ∧ v.catName = "Food" ∧ v.catType = .expense ∧ v.catColor = "#FF5722" ∧
      ((⟨250, "coffee", ⟨2024, 3, 4⟩, .expense, 5, none⟩ : TxnInput).notes = none →
        v.notes = none) := by
  have h := create_then_get_roundtrip
    ⟨[⟨5, "Food", none, .expense, "#FF5722", some 1, false⟩], [], 1⟩ 1
    ⟨250, "coffee", ⟨2024, 3, 4⟩, .expense, 5, none⟩ 9
    ⟨5, "Food", none, .expense, "#FF5722", some 1, false⟩
    (by simp) (by decide) (by decide)
  obtain ⟨v, db', hcreate, hget, h1, h2, h3, h4, h5, h6, h7, h8, h9⟩ := h
  exact ⟨v, db', hcreate, hget, h1, by simpa using h2, h3, h4, h5, by simpa using h6,
    by simpa using h7, by simpa using h8, h9⟩

end ExpenseTracker
